import Mathlib

/-!
Verification of the model lifecycle registry (src/mcp_server.py) and the
tool registry and dispatcher (src/tools/registry.py, src/tools/calculator.py)
of the mcp-sample-project repository, as a shallow embedding in Lean.

Python floats are modelled by rationals, Python ints by unbounded integers
or naturals (Python integers do not overflow), wall-clock readings are passed
in as explicit arguments, and the backend inference service is an explicit
argument describing the outcome of the HTTP call.
-/

set_option autoImplicit false

/-! ### Model lifecycle registry: data model (mcp_server.py, ModelState / ModelInfo) -/

inductive ModelState where
  | stopped
  | starting
  | running
  | error
deriving DecidableEq, Repr

structure ModelInfo where
  name : String
  state : ModelState
  last_used : ℚ
  load_count : ℕ
  avg_response_time : ℚ
  error_count : ℕ
deriving DecidableEq, Repr

-- Fresh record created by add_model: ModelInfo(name=model_name) with the
-- dataclass defaults state=STOPPED, last_used=0, load_count=0,
-- avg_response_time=0, error_count=0.
def freshModel (model_name : String) : ModelInfo :=
  { name := model_name
    state := ModelState.stopped
    last_used := 0
    load_count := 0
    avg_response_time := 0
    error_count := 0 }

-- The MCP registry state: the dict self.models, as an insertion-ordered
-- association list.
structure MCP where
  models : List (String × ModelInfo)
deriving DecidableEq, Repr

-- In-place mutation of the record stored under a key, as Python's
-- `model = self.models[name]; model.field = v` does.
def updateModel (ms : List (String × ModelInfo)) (model_name : String)
    (f : ModelInfo → ModelInfo) : List (String × ModelInfo) :=
  ms.map fun p => if p.1 = model_name then (p.1, f p.2) else p

-- The JSON bodies returned by add_model / start_model / stop_model:
-- either a status message or an error message.
inductive ApiResult where
  | status (msg : String)
  | err (msg : String)
deriving DecidableEq, Repr

/-! ### Model lifecycle registry: operations -/

def MCP.add_model (s : MCP) (model_name : String) : MCP × ApiResult :=
  match s.models.lookup model_name with
  | Option.some _ => (s, ApiResult.status ("Model " ++ model_name ++ " already exists"))
  | Option.none =>
      ({ models := s.models ++ [(model_name, freshModel model_name)] },
       ApiResult.status ("Model " ++ model_name ++ " added"))

-- Outcome of the backend availability check / pull inside start_model:
-- ok when the model is in the Ollama catalog or the pull succeeds, error
-- (carrying the exception text) otherwise.
def StartBackend := Except String Unit

def MCP.start_model (s : MCP) (model_name : String) (backend : Except String Unit)
    (now : ℚ) : MCP × ApiResult :=
  match s.models.lookup model_name with
  | Option.none => (s, ApiResult.err ("Model " ++ model_name ++ " not found"))
  | Option.some model =>
      if model.state = ModelState.running then
        (s, ApiResult.status ("Model " ++ model_name ++ " is already running"))
      else
        -- model.state = STARTING, then the backend check resolves it
        let s1 : MCP :=
          { models := updateModel s.models model_name
              fun m => { m with state := ModelState.starting } }
        match backend with
        | Except.ok _ =>
            ({ models := updateModel s1.models model_name
                 fun m => { m with state := ModelState.running, last_used := now } },
             ApiResult.status ("Model " ++ model_name ++ " started successfully"))
        | Except.error e =>
            ({ models := updateModel s1.models model_name
                 fun m => { m with state := ModelState.error,
                                   error_count := m.error_count + 1 } },
             ApiResult.err ("Failed to start model " ++ model_name ++ ": " ++ e))

def MCP.stop_model (s : MCP) (model_name : String) : MCP × ApiResult :=
  match s.models.lookup model_name with
  | Option.some _ =>
      ({ models := updateModel s.models model_name
           fun m => { m with state := ModelState.stopped } },
       ApiResult.status ("Model " ++ model_name ++ " stopped"))
  | Option.none => (s, ApiResult.err ("Model " ++ model_name ++ " not found"))

def MCP.list_models (s : MCP) : List ModelInfo :=
  s.models.map fun p => p.2

structure GenRequest where
  prompt : String
  max_tokens : ℤ
  temperature : ℚ
deriving DecidableEq, Repr

structure GenResponse where
  response : String
  model : String
  tokens_used : ℕ
  processing_time : ℚ
deriving DecidableEq, Repr

-- The HTTPExceptions raised by MCP.generate, by status code.
inductive GenError where
  | notFound (detail : String)            -- 404
  | notRunning (detail : String)          -- 400
  | backendUnavailable (detail : String)  -- 503
deriving DecidableEq, Repr

-- Outcome of the POST /api/generate backend call: the parsed response text
-- and eval_count on success, or a requests.RequestException message.
inductive BackendGen where
  | ok (response : String) (eval_count : ℕ)
  | exc (msg : String)
deriving DecidableEq, Repr

-- MCP.generate: `now` is the time.time() reading used for last_used and
-- `duration` is the measured wall-clock processing time. The request body
-- is forwarded to the backend, whose outcome is the `backend` argument.
def MCP.generate (s : MCP) (model_name : String) (_request : GenRequest)
    (backend : BackendGen) (now duration : ℚ) : MCP × Except GenError GenResponse :=
  match s.models.lookup model_name with
  | Option.none =>
      (s, Except.error (GenError.notFound ("Model " ++ model_name ++ " not found")))
  | Option.some model =>
      if model.state ≠ ModelState.running then
        (s, Except.error (GenError.notRunning ("Model " ++ model_name ++ " is not running")))
      else
        match backend with
        | BackendGen.ok resp cnt =>
            ({ models := updateModel s.models model_name fun m =>
                 { m with last_used := now
                          load_count := m.load_count + 1
                          avg_response_time :=
                            if m.avg_response_time = 0 then duration
                            else (m.avg_response_time + duration) / 2 } },
             Except.ok { response := resp, model := model_name,
                         tokens_used := cnt, processing_time := duration })
        | BackendGen.exc msg =>
            ({ models := updateModel s.models model_name fun m =>
                 { m with error_count := m.error_count + 1 } },
             Except.error (GenError.backendUnavailable
               ("Error generating response: " ++ msg)))

/-! ### Lock discipline traces (mcp_server.py, `with self.lock` blocks)

Each registry operation is abstracted to the sequence of lock events and
writes (to the models map or to a record) it performs, in source order.
-/

inductive Event where
  | acquire
  | release
  | writeMap
  | writeRecord
deriving DecidableEq, Repr

-- add_model: everything inside `with self.lock`; writes the map only when
-- the name is absent.
def add_model_events (present : Bool) : List Event :=
  [Event.acquire] ++ (if present then [] else [Event.writeMap]) ++ [Event.release]

-- stop_model: everything inside `with self.lock`; writes the record's state
-- only when the name is present.
def stop_model_events (present : Bool) : List Event :=
  [Event.acquire] ++ (if present then [Event.writeRecord] else []) ++ [Event.release]

-- start_model: the membership test is outside the lock (a read); all writes
-- (state := STARTING, then state/last_used on success or state/error_count
-- on failure) happen inside `with self.lock`.
def start_model_events (present alreadyRunning backendOk : Bool) : List Event :=
  if present then
    [Event.acquire] ++
      (if alreadyRunning then []
       else [Event.writeRecord] ++
         (if backendOk then [Event.writeRecord, Event.writeRecord]
          else [Event.writeRecord, Event.writeRecord])) ++
    [Event.release]
  else []

-- generate: acquires no lock anywhere; on the happy path writes last_used,
-- load_count and avg_response_time, on backend failure writes error_count.
def generate_events (present running backendOk : Bool) : List Event :=
  if present then
    if running then
      if backendOk then [Event.writeRecord, Event.writeRecord, Event.writeRecord]
      else [Event.writeRecord]
    else []
  else []

def writesLockedFrom : List Event → ℕ → Bool
  | [], _ => true
  | Event.acquire :: es, d => writesLockedFrom es (d + 1)
  | Event.release :: es, d => writesLockedFrom es (d - 1)
  | Event.writeMap :: es, d => decide (0 < d) && writesLockedFrom es d
  | Event.writeRecord :: es, d => decide (0 < d) && writesLockedFrom es d

-- Every write in the trace happens while the lock is held.
def allWritesLocked (es : List Event) : Bool :=
  writesLockedFrom es 0

/-! ### Python values and exceptions

A sum type over the Python values that cross the tool registry boundary.
`obj` stands for any other Python object (not JSON-serializable).
-/

inductive PyVal where
  | str (s : String)
  | int (n : ℤ)
  | float (q : ℚ)
  | bool (b : Bool)
  | none
  | list (xs : List PyVal)
  | dict (xs : List (String × PyVal))
  | obj (tag : String)

-- The Python exception classes the embedded code distinguishes.
inductive PyErr where
  | valueError (s : String)
  | typeError (s : String)
  | zeroDivisionError (s : String)
  | calculatorError (s : String)
  | requestException (s : String)
  | otherExc (s : String)
deriving DecidableEq, Repr

def PyErr.isValueError : PyErr → Bool
  | PyErr.valueError _ => true
  | _ => false

def PyErr.msg : PyErr → String
  | PyErr.valueError s => s
  | PyErr.typeError s => s
  | PyErr.zeroDivisionError s => s
  | PyErr.calculatorError s => s
  | PyErr.requestException s => s
  | PyErr.otherExc s => s

-- json.dumps succeeds exactly on str/int/float/bool/None and lists/dicts
-- of serializable values; on anything else it raises TypeError.
mutual
def jsonSerializable : PyVal → Bool
  | PyVal.str _ => true
  | PyVal.int _ => true
  | PyVal.float _ => true
  | PyVal.bool _ => true
  | PyVal.none => true
  | PyVal.list xs => jsonSerializableList xs
  | PyVal.dict xs => jsonSerializableDict xs
  | PyVal.obj _ => false

def jsonSerializableList : List PyVal → Bool
  | [] => true
  | x :: xs => jsonSerializable x && jsonSerializableList xs

def jsonSerializableDict : List (String × PyVal) → Bool
  | [] => true
  | p :: xs => jsonSerializable p.2 && jsonSerializableDict xs
end

/-! ### Tool registry (tools/registry.py) -/

-- Python type annotations as they appear in tool parameter schemas.
inductive PyType where
  | str
  | float
  | int
  | bool
  | noneType
  | named (s : String)
deriving DecidableEq, Repr

-- One formal parameter of a Python callable as inspect.signature reports it:
-- `annot` is Parameter.annotation (none when empty), `default` is
-- Parameter.default (none when empty).
structure SigParam where
  name : String
  annot : Option PyType
  default : Option PyVal

-- A Python callable: its introspectable signature plus its behaviour on a
-- keyword-argument mapping (returning a value or raising).
structure PyCallable where
  sig : List SigParam
  run : List (String × PyVal) → Except PyErr PyVal

-- One entry of the parameters dict built by ToolRegistry.register:
-- keys type / description / required, plus default only when present.
structure ParamInfo where
  type : PyType
  description : String
  required : Bool
  default : Option PyVal

structure Tool where
  name : String
  function : PyCallable
  description : String
  parameters : List (String × ParamInfo)
  return_type : PyType

-- The signature-introspection loop of ToolRegistry.register: one descriptor
-- per formal parameter, skipping self; type defaults to str when
-- unannotated; required iff no default; default carried when present.
def inferParameters (sig : List SigParam) : List (String × ParamInfo) :=
  sig.filterMap fun param =>
    if param.name = "self" then Option.none
    else
      Option.some (param.name,
        { type := param.annot.getD PyType.str
          description := "Parameter " ++ param.name
          required := param.default.isNone
          default := param.default })

structure ToolRegistry where
  tools : List (String × Tool)

def ToolRegistry.get_tool (r : ToolRegistry) (name : String) : Option Tool :=
  r.tools.lookup name

-- ToolRegistry.register. The ValueError raise happens before any mutation,
-- so the returned registry is unchanged in the error case; the optional
-- second component is the raised exception.
def ToolRegistry.register (r : ToolRegistry) (name : String) (function : PyCallable)
    (description : String) (parameters : Option (List (String × ParamInfo)))
    (return_type : PyType) : ToolRegistry × Option PyErr :=
  if (r.tools.lookup name).isSome then
    (r, Option.some (PyErr.valueError ("Tool " ++ name ++ " is already registered")))
  else
    let ps : List (String × ParamInfo) :=
      match parameters with
      | Option.some ps => ps
      | Option.none => inferParameters function.sig
    ({ tools := r.tools ++
        [(name, { name := name, function := function, description := description,
                  parameters := ps, return_type := return_type })] },
     Option.none)

-- ToolRegistry.execute: ValueError when the tool is unknown; the callable's
-- own exception propagated unchanged; ValueError when json.dumps raises
-- TypeError on the result; otherwise the result unchanged.
def ToolRegistry.execute (r : ToolRegistry) (tool_name : String)
    (kwargs : List (String × PyVal)) : Except PyErr PyVal :=
  match r.get_tool tool_name with
  | Option.none =>
      Except.error (PyErr.valueError ("Tool " ++ tool_name ++ " not found"))
  | Option.some tool =>
      match tool.function.run kwargs with
      | Except.error e => Except.error e
      | Except.ok result =>
          if jsonSerializable result then Except.ok result
          else Except.error
            (PyErr.valueError ("Tool " ++ tool_name ++ " returned non-serializable result"))

/-! ### POST /tools/execute handler (mcp_server.py, execute_tool) -/

inductive ExecBody where
  | success (result : PyVal) (tool_name : String)  -- \x7bsuccess, result, tool_name\x7d
  | detail (msg : String)                          -- \x7bdetail\x7d error body

-- execute_tool: tool_name is request.get("tool_name") (none when missing).
-- The HTTPException(400) for a missing/empty name is raised inside the try
-- block, so the `except Exception` arm turns it into a 500; ValueError maps
-- to 404 and every other exception to 500.
def execute_tool (r : ToolRegistry) (tool_name : Option String)
    (parameters : List (String × PyVal)) : ℕ × ExecBody :=
  match tool_name with
  | Option.none => (500, ExecBody.detail "400: Missing tool_name")
  | Option.some tn =>
      if tn = "" then (500, ExecBody.detail "400: Missing tool_name")
      else
        match r.execute tn parameters with
        | Except.ok result => (200, ExecBody.success result tn)
        | Except.error e =>
            if e.isValueError then (404, ExecBody.detail e.msg)
            else (500, ExecBody.detail e.msg)

/-! ### Calculator tool (tools/calculator.py) -/

-- ''.join(expression.split()): remove all whitespace.
def stripWhitespace (s : String) : String :=
  String.mk (s.data.filter fun c => !c.isWhitespace)

-- isinstance(result, Number) over the embedded value type: int, float and
-- bool are numbers.Number instances.
def isNumber : PyVal → Bool
  | PyVal.int _ => true
  | PyVal.float _ => true
  | PyVal.bool _ => true
  | _ => false

-- float(result) on a Number.
def pyFloat : PyVal → ℚ
  | PyVal.int n => (n : ℚ)
  | PyVal.float q => q
  | PyVal.bool b => if b then 1 else 0
  | _ => 0

-- Python truthiness of the values that can reach `if not expression`.
def pyTruthy : PyVal → Bool
  | PyVal.str s => decide (s ≠ "")
  | PyVal.int n => decide (n ≠ 0)
  | PyVal.float q => decide (q ≠ 0)
  | PyVal.bool b => b
  | PyVal.none => false
  | PyVal.list xs => !xs.isEmpty
  | PyVal.dict xs => !xs.isEmpty
  | PyVal.obj _ => true

-- Outcome of Python's eval on the sanitized expression string: a value, or
-- a raised exception.
inductive EvalOutcome where
  | val (v : PyVal)
  | exc (e : PyErr)

-- Calculator.evaluate. The regex validation Calculator._is_valid_expression
-- and the builtin eval are external to the claim being checked and are
-- passed in as explicit arguments `valid` and `evalFn`; every branch of the
-- source is reflected: non-string or falsy input, failed validation,
-- ZeroDivisionError, a non-Number result (whose CalculatorError is raised
-- inside the try block and rewrapped by the `except Exception` arm), and any
-- other exception from evaluation.
def Calculator.evaluate (valid : String → Bool) (evalFn : String → EvalOutcome)
    (expression : PyVal) : Except PyErr ℚ :=
  match expression with
  | PyVal.str s =>
      if s = "" then
        Except.error (PyErr.calculatorError "Expression must be a non-empty string")
      else
        let expr := stripWhitespace s
        if !(valid expr) then
          Except.error (PyErr.calculatorError "Invalid mathematical expression")
        else
          match evalFn expr with
          | EvalOutcome.val result =>
              if isNumber result then Except.ok (pyFloat result)
              else
                Except.error (PyErr.calculatorError
                  ("Error evaluating expression: Expression did not evaluate to a number"))
          | EvalOutcome.exc (PyErr.zeroDivisionError _) =>
              Except.error (PyErr.calculatorError "Division by zero")
          | EvalOutcome.exc e =>
              Except.error (PyErr.calculatorError
                ("Error evaluating expression: " ++ PyErr.msg e))
  | _ => Except.error (PyErr.calculatorError "Expression must be a non-empty string")

-- calculate(expression) = Calculator.evaluate(expression).
def calculate (valid : String → Bool) (evalFn : String → EvalOutcome)
    (expression : PyVal) : Except PyErr ℚ :=
  Calculator.evaluate valid evalFn expression

/-! ### Concrete fixtures used to exercise the definitions -/

def runningModel : ModelInfo :=
  { name := "m", state := ModelState.running, last_used := 0, load_count := 0,
    avg_response_time := 0, error_count := 0 }

def erroredModel : ModelInfo :=
  { name := "m", state := ModelState.error, last_used := 0, load_count := 0,
    avg_response_time := 0, error_count := 1 }

def stoppedMCP : MCP := { models := [("m", freshModel "m")] }

def runningMCP : MCP := { models := [("m", runningModel)] }

def erroredMCP : MCP := { models := [("m", erroredModel)] }

def someRequest : GenRequest := { prompt := "2+2", max_tokens := 512, temperature := 7/10 }

def goodTool : Tool :=
  { name := "good"
    function := { sig := [], run := fun _ => Except.ok (PyVal.float 4) }
    description := ""
    parameters := []
    return_type := PyType.float }

def badTool : Tool :=
  { name := "bad"
    function := { sig := [], run := fun _ => Except.ok (PyVal.obj "handle") }
    description := ""
    parameters := []
    return_type := PyType.str }

def boomTool : Tool :=
  { name := "boom"
    function := { sig := [], run := fun _ => Except.error (PyErr.calculatorError "Division by zero") }
    description := ""
    parameters := []
    return_type := PyType.float }

def toolRegistryFix : ToolRegistry :=
  { tools := [("good", goodTool), ("bad", badTool), ("boom", boomTool)] }

def sigFix : List SigParam :=
  [{ name := "self", annot := Option.none, default := Option.none },
   { name := "x", annot := Option.some PyType.int, default := Option.none },
   { name := "y", annot := Option.none, default := Option.some (PyVal.int 3) }]

def fnFix : PyCallable := { sig := sigFix, run := fun _ => Except.ok PyVal.none }

/-! ### Helper lemmas on association-list lookup and updateModel -/

theorem updateModel_cons_self (a : String) (m : ModelInfo)
    (ms : List (String × ModelInfo)) (f : ModelInfo → ModelInfo) :
    updateModel ((a, m) :: ms) a f = (a, f m) :: updateModel ms a f := by
  simp [updateModel]

theorem updateModel_cons_ne (a k : String) (m : ModelInfo)
    (ms : List (String × ModelInfo)) (f : ModelInfo → ModelInfo) (h : a ≠ k) :
    updateModel ((a, m) :: ms) k f = (a, m) :: updateModel ms k f := by
  simp [updateModel, h]

theorem lookup_updateModel_self (ms : List (String × ModelInfo)) (k : String)
    (f : ModelInfo → ModelInfo) :
    List.lookup k (updateModel ms k f) = (List.lookup k ms).map f := by
  induction ms with
  | nil => rfl
  | cons p ms ih =>
    obtain ⟨a, m⟩ := p
    by_cases h : a = k
    · subst h
      rw [updateModel_cons_self]
      simp
    · have hk : (k == a) = false := by simp [Ne.symm h]
      rw [updateModel_cons_ne a k m ms f h]
      simp [List.lookup_cons, hk, ih]

theorem lookup_updateModel_ne (ms : List (String × ModelInfo)) (k k' : String)
    (f : ModelInfo → ModelInfo) (hne : k' ≠ k) :
    List.lookup k' (updateModel ms k f) = List.lookup k' ms := by
  induction ms with
  | nil => rfl
  | cons p ms ih =>
    obtain ⟨a, m⟩ := p
    by_cases h : a = k
    · subst h
      have hk : (k' == a) = false := by simp [hne]
      rw [updateModel_cons_self]
      simp [List.lookup_cons, hk, ih]
    · rw [updateModel_cons_ne a k m ms f h]
      simp [List.lookup_cons, ih]

theorem lookup_append_left {β : Type} {ms ms2 : List (String × β)} {k : String}
    {m : β} (h : List.lookup k ms = Option.some m) :
    List.lookup k (ms ++ ms2) = Option.some m := by
  induction ms with
  | nil => simp [List.lookup] at h
  | cons p ms ih =>
    obtain ⟨a, v⟩ := p
    rw [List.cons_append]
    rw [List.lookup_cons] at h ⊢
    cases hk : (k == a) with
    | true => rw [hk] at h; simpa using h
    | false => rw [hk] at h; exact ih h

theorem lookup_append_right {β : Type} {ms ms2 : List (String × β)} {k : String}
    (h : List.lookup k ms = Option.none) :
    List.lookup k (ms ++ ms2) = List.lookup k ms2 := by
  induction ms with
  | nil => rfl
  | cons p ms ih =>
    obtain ⟨a, v⟩ := p
    rw [List.cons_append]
    rw [List.lookup_cons] at h ⊢
    cases hk : (k == a) with
    | true => rw [hk] at h; simp at h
    | false => rw [hk] at h; exact ih h

/-! ### Frame lemmas for the registry operations -/

theorem add_model_lookup_preserved (s : MCP) (n k : String) {m : ModelInfo}
    (h : List.lookup k s.models = Option.some m) :
    List.lookup k ((s.add_model n).1).models = Option.some m := by
  unfold MCP.add_model
  cases hn : List.lookup n s.models with
  | some v => simpa using h
  | none => simpa using lookup_append_left h

theorem stop_model_lookup_ne (s : MCP) (n k : String) (hne : k ≠ n) :
    List.lookup k ((s.stop_model n).1).models = List.lookup k s.models := by
  unfold MCP.stop_model
  cases hn : List.lookup n s.models with
  | some v => simpa using lookup_updateModel_ne s.models n k _ hne
  | none => rfl

theorem stop_model_lookup_self (s : MCP) (n : String) {m : ModelInfo}
    (h : List.lookup n s.models = Option.some m) :
    List.lookup n ((s.stop_model n).1).models =
      Option.some { m with state := ModelState.stopped } := by
  unfold MCP.stop_model
  rw [h]
  simp [lookup_updateModel_self, h]

theorem start_model_not_found (s : MCP) (n : String) (b : Except String Unit) (now : ℚ)
    (h : List.lookup n s.models = Option.none) :
    (s.start_model n b now).1 = s := by
  unfold MCP.start_model
  rw [h]

theorem start_model_already_running (s : MCP) (n : String) (b : Except String Unit)
    (now : ℚ) {m : ModelInfo} (h : List.lookup n s.models = Option.some m)
    (hr : m.state = ModelState.running) :
    (s.start_model n b now).1 = s := by
  unfold MCP.start_model
  rw [h]
  simp [hr]

theorem start_model_ok_self (s : MCP) (n : String) (u : Unit) (now : ℚ)
    {m : ModelInfo} (h : List.lookup n s.models = Option.some m)
    (hr : m.state ≠ ModelState.running) :
    List.lookup n ((s.start_model n (Except.ok u) now).1).models =
      Option.some { m with state := ModelState.running, last_used := now } := by
  unfold MCP.start_model
  rw [h]
  simp only [if_neg hr]
  simp [lookup_updateModel_self, h]

theorem start_model_err_self (s : MCP) (n e : String) (now : ℚ)
    {m : ModelInfo} (h : List.lookup n s.models = Option.some m)
    (hr : m.state ≠ ModelState.running) :
    List.lookup n ((s.start_model n (Except.error e) now).1).models =
      Option.some { m with state := ModelState.error,
                           error_count := m.error_count + 1 } := by
  unfold MCP.start_model
  rw [h]
  simp only [if_neg hr]
  simp [lookup_updateModel_self, h]

theorem start_model_lookup_ne (s : MCP) (n k : String) (b : Except String Unit)
    (now : ℚ) (hne : k ≠ n) :
    List.lookup k ((s.start_model n b now).1).models = List.lookup k s.models := by
  unfold MCP.start_model
  cases hn : List.lookup n s.models with
  | none => rfl
  | some m =>
    by_cases hr : m.state = ModelState.running
    · simp [hr]
    · cases b with
      | ok u =>
        simp only [if_neg hr]
        simp [lookup_updateModel_ne _ _ _ _ hne]
      | error e =>
        simp only [if_neg hr]
        simp [lookup_updateModel_ne _ _ _ _ hne]

theorem generate_not_found (s : MCP) (n : String) (req : GenRequest)
    (b : BackendGen) (now dur : ℚ) (h : List.lookup n s.models = Option.none) :
    MCP.generate s n req b now dur =
      (s, Except.error (GenError.notFound ("Model " ++ n ++ " not found"))) := by
  unfold MCP.generate
  rw [h]

theorem generate_not_running (s : MCP) (n : String) (req : GenRequest)
    (b : BackendGen) (now dur : ℚ) {m : ModelInfo}
    (h : List.lookup n s.models = Option.some m)
    (hr : m.state ≠ ModelState.running) :
    MCP.generate s n req b now dur =
      (s, Except.error (GenError.notRunning ("Model " ++ n ++ " is not running"))) := by
  unfold MCP.generate
  rw [h]
  simp [hr]

theorem generate_ok_self (s : MCP) (n : String) (req : GenRequest)
    (resp : String) (cnt : ℕ) (now dur : ℚ) {m : ModelInfo}
    (h : List.lookup n s.models = Option.some m)
    (hr : m.state = ModelState.running) :
    List.lookup n ((MCP.generate s n req (BackendGen.ok resp cnt) now dur).1).models =
      Option.some { m with last_used := now
                           load_count := m.load_count + 1
                           avg_response_time :=
                             if m.avg_response_time = 0 then dur
                             else (m.avg_response_time + dur) / 2 } := by
  unfold MCP.generate
  rw [h]
  simp [hr, lookup_updateModel_self, h]

theorem generate_exc_self (s : MCP) (n : String) (req : GenRequest)
    (msg : String) (now dur : ℚ) {m : ModelInfo}
    (h : List.lookup n s.models = Option.some m)
    (hr : m.state = ModelState.running) :
    List.lookup n ((MCP.generate s n req (BackendGen.exc msg) now dur).1).models =
      Option.some { m with error_count := m.error_count + 1 } := by
  unfold MCP.generate
  rw [h]
  simp [hr, lookup_updateModel_self, h]

theorem generate_lookup_ne (s : MCP) (n k : String) (req : GenRequest)
    (b : BackendGen) (now dur : ℚ) (hne : k ≠ n) :
    List.lookup k ((MCP.generate s n req b now dur).1).models =
      List.lookup k s.models := by
  unfold MCP.generate
  cases hn : List.lookup n s.models with
  | none => rfl
  | some m =>
    by_cases hr : m.state = ModelState.running
    · cases b with
      | ok resp cnt => simp [hr, lookup_updateModel_ne _ _ _ _ hne]
      | exc msg => simp [hr, lookup_updateModel_ne _ _ _ _ hne]
    · simp [hr]

/-! ### Claim theorems -/

/-- Claim C1, counterexample: when the first measured duration is `d1 = 0`,
the first successful `Generate` leaves `avg_response_time = 0` (the code sets
the average to the duration itself), so the second successful call with
`d2 = 1` sets the average to `1`, not to the claimed `(d1 + d2) / 2 = 1/2`. -/
theorem C1_counterexample :
    (List.lookup "m"
      ((MCP.generate
          ((MCP.generate runningMCP "m" someRequest (BackendGen.ok "" 0) 1 0).1)
          "m" someRequest (BackendGen.ok "" 0) 2 1).1).models).map
        ModelInfo.avg_response_time = Option.some 1
    ∧ (1 : ℚ) ≠ (0 + 1) / 2 := by
  constructor
  · decide
  · norm_num

/-- Claim C1, amended: each successful `Generate` on a running model sets
`avg_response_time` to the measured duration when the previous average is
zero and to the arithmetic mean of the previous average and the duration
otherwise; hence for two successful calls with durations `d1` then `d2`
starting from `avg_response_time = 0`, with `d1 ≠ 0`, the average is `d1`
after the first call and `(d1 + d2) / 2` after the second. -/
theorem C1_avg_update_rule :
    (∀ (s : MCP) (n : String) (req : GenRequest) (resp : String) (cnt : ℕ)
       (now d : ℚ) (m : ModelInfo),
       List.lookup n s.models = Option.some m → m.state = ModelState.running →
       (List.lookup n ((MCP.generate s n req (BackendGen.ok resp cnt) now d).1).models).map
           ModelInfo.avg_response_time =
         Option.some (if m.avg_response_time = 0 then d
                      else (m.avg_response_time + d) / 2)) ∧
    (∀ (s : MCP) (n : String) (req1 req2 : GenRequest) (r1 r2 : String) (c1 c2 : ℕ)
       (now1 now2 d1 d2 : ℚ) (m : ModelInfo),
       List.lookup n s.models = Option.some m → m.state = ModelState.running →
       m.avg_response_time = 0 → d1 ≠ 0 →
       (List.lookup n ((MCP.generate s n req1 (BackendGen.ok r1 c1) now1 d1).1).models).map
           ModelInfo.avg_response_time = Option.some d1 ∧
       (List.lookup n ((MCP.generate
            ((MCP.generate s n req1 (BackendGen.ok r1 c1) now1 d1).1)
            n req2 (BackendGen.ok r2 c2) now2 d2).1).models).map
           ModelInfo.avg_response_time = Option.some ((d1 + d2) / 2)) := by
  constructor
  · intro s n req resp cnt now d m h hr
    rw [generate_ok_self s n req resp cnt now d h hr]
    rfl
  · intro s n req1 req2 r1 r2 c1 c2 now1 now2 d1 d2 m h hr havg hd1
    have h1 := generate_ok_self s n req1 r1 c1 now1 d1 h hr
    rw [havg] at h1
    simp only [if_pos rfl] at h1
    constructor
    · rw [h1]
      simp
    · have h2 := generate_ok_self
        ((MCP.generate s n req1 (BackendGen.ok r1 c1) now1 d1).1)
        n req2 r2 c2 now2 d2 h1 hr
      rw [h2]
      simp [if_neg hd1]

/-- Claim C1, witness: the amended rule instantiated on a concrete running
model with durations 2 then 4, giving averages 2 and 3. -/
theorem C1_avg_update_rule_witness :
    (List.lookup "m"
      ((MCP.generate runningMCP "m" someRequest (BackendGen.ok "" 0) 1 2).1).models).map
        ModelInfo.avg_response_time = Option.some 2 ∧
    (List.lookup "m"
      ((MCP.generate
          ((MCP.generate runningMCP "m" someRequest (BackendGen.ok "" 0) 1 2).1)
          "m" someRequest (BackendGen.ok "" 0) 5 4).1).models).map
        ModelInfo.avg_response_time = Option.some 3 := by
  have h := C1_avg_update_rule.2 runningMCP "m" someRequest someRequest "" "" 0 0
    1 5 2 4 runningModel rfl rfl rfl (by norm_num)
  refine ⟨h.1, ?_⟩
  have h2 := h.2
  rw [h2]
  norm_num

/-- Claim C4 (code bug): the lock discipline of the registry operations.
`add_model`, `stop_model` and `start_model` perform all of their writes to
the model map and records while holding `self.lock`, but the post-call
statistics update inside `generate` is performed without the lock:
`generate` never acquires it, so its trace of writes is unlocked whenever
the model is present and running. -/
theorem C4_generate_stats_unlocked :
    ∀ (p r b : Bool),
      allWritesLocked (add_model_events p) = true ∧
      allWritesLocked (stop_model_events p) = true ∧
      allWritesLocked (start_model_events p r b) = true ∧
      allWritesLocked (generate_events true true b) = false := by
  decide

/-- Claim C5: `Generate` fails with a 404 `NotFound` error when the name is
not in the model map, and with a 400 `NotRunning` error when the model's
state is not `Running`; in both cases the registry state — hence every
record's `last_used`, `load_count`, `avg_response_time` and `error_count` —
is returned unchanged. -/
theorem C5_generate_error_paths :
    ∀ (s : MCP) (n : String) (req : GenRequest) (b : BackendGen) (now dur : ℚ),
      (List.lookup n s.models = Option.none →
        MCP.generate s n req b now dur =
          (s, Except.error (GenError.notFound ("Model " ++ n ++ " not found")))) ∧
      (∀ m, List.lookup n s.models = Option.some m → m.state ≠ ModelState.running →
        MCP.generate s n req b now dur =
          (s, Except.error (GenError.notRunning ("Model " ++ n ++ " is not running")))) := by
  intro s n req b now dur
  exact ⟨generate_not_found s n req b now dur,
         fun m h hr => generate_not_running s n req b now dur h hr⟩

/-- Claim C5, witness: on a registry holding only a stopped model `m`,
generating with unknown name `x` yields `NotFound` and generating with `m`
yields `NotRunning`, each leaving the state unchanged. -/
theorem C5_generate_error_paths_witness :
    MCP.generate stoppedMCP "x" someRequest (BackendGen.ok "" 0) 0 0 =
      (stoppedMCP, Except.error (GenError.notFound "Model x not found")) ∧
    MCP.generate stoppedMCP "m" someRequest (BackendGen.ok "" 0) 0 0 =
      (stoppedMCP, Except.error (GenError.notRunning "Model m is not running")) := by
  have h1 := C5_generate_error_paths stoppedMCP "x" someRequest (BackendGen.ok "" 0) 0 0
  have h2 := C5_generate_error_paths stoppedMCP "m" someRequest (BackendGen.ok "" 0) 0 0
  exact ⟨h1.1 rfl, h2.2 (freshModel "m") rfl (by decide)⟩

/-- Claim C2, counterexample: `StartModel` invoked on a model in state
`Error` does move the record out of `Error` — with a successful backend
check the record ends in `Running`. -/
theorem C2_counterexample :
    (List.lookup "m" ((MCP.start_model erroredMCP "m" (Except.ok ()) 1).1).models).map
        ModelInfo.state = Option.some ModelState.running := by
  decide

/-- Claim C2, amended: for a reachable record in state `Error`, `AddModel`
and `Generate` never change its state, `StopModel` on another name leaves it
in `Error`, `StopModel` on its name sets it to `Stopped`, and `StartModel`
on its name re-attempts the start: it moves the record to `Running` when the
backend check succeeds and back to `Error` (with `error_count` incremented)
when it fails. -/
theorem C2_error_state_transitions :
    ∀ (s : MCP) (k : String) (m : ModelInfo),
      List.lookup k s.models = Option.some m → m.state = ModelState.error →
      (∀ n, (List.lookup k ((s.add_model n).1).models).map ModelInfo.state =
          Option.some ModelState.error) ∧
      (∀ n req b now dur,
        (List.lookup k ((MCP.generate s n req b now dur).1).models).map ModelInfo.state =
          Option.some ModelState.error) ∧
      (∀ n, n ≠ k → (List.lookup k ((s.stop_model n).1).models).map ModelInfo.state =
          Option.some ModelState.error) ∧
      ((List.lookup k ((s.stop_model k).1).models).map ModelInfo.state =
          Option.some ModelState.stopped) ∧
      (∀ u now, (List.lookup k ((s.start_model k (Except.ok u) now).1).models).map
          ModelInfo.state = Option.some ModelState.running) ∧
      (∀ e now, (List.lookup k ((s.start_model k (Except.error e) now).1).models).map
          ModelInfo.state = Option.some ModelState.error) := by
  intro s k m h hm
  have hnr : m.state ≠ ModelState.running := by rw [hm]; decide
  refine ⟨?_, ?_, ?_, ?_, ?_, ?_⟩
  · intro n
    rw [add_model_lookup_preserved s n k h]
    simp [hm]
  · intro n req b now dur
    by_cases hn : n = k
    · subst hn
      rw [generate_not_running s n req b now dur h hnr]
      simp [h, hm]
    · rw [generate_lookup_ne s n k req b now dur fun hc => hn hc.symm]
      simp [h, hm]
  · intro n hn
    rw [stop_model_lookup_ne s n k fun hc => hn hc.symm]
    simp [h, hm]
  · rw [stop_model_lookup_self s k h]
    simp
  · intro u now
    rw [start_model_ok_self s k u now h hnr]
    simp
  · intro e now
    rw [start_model_err_self s k e now h hnr]
    simp

/-- Claim C2, witness: the amended transitions instantiated on a concrete
registry whose only model `m` is in state `Error`. -/
theorem C2_error_state_transitions_witness :
    (List.lookup "m" ((MCP.add_model erroredMCP "n").1).models).map ModelInfo.state =
      Option.some ModelState.error ∧
    (List.lookup "m"
      ((MCP.generate erroredMCP "m" someRequest (BackendGen.ok "" 0) 1 1).1).models).map
        ModelInfo.state = Option.some ModelState.error ∧
    (List.lookup "m" ((MCP.stop_model erroredMCP "m").1).models).map ModelInfo.state =
      Option.some ModelState.stopped ∧
    (List.lookup "m" ((MCP.start_model erroredMCP "m" (Except.error "boom") 1).1).models).map
        ModelInfo.state = Option.some ModelState.error := by
  have h := C2_error_state_transitions erroredMCP "m" erroredModel rfl rfl
  exact ⟨h.1 "n", h.2.1 "m" someRequest (BackendGen.ok "" 0) 1 1, h.2.2.2.1,
         h.2.2.2.2.2 "boom" 1⟩

/-- Claim C3, counterexample: a successful `StartModel` does change
`last_used` — starting the stopped model `m` with a successful backend check
at time 5 sets `last_used` from 0 to 5. -/
theorem C3_counterexample :
    (List.lookup "m" ((MCP.start_model stoppedMCP "m" (Except.ok ()) 5).1).models).map
        ModelInfo.last_used = Option.some (5 : ℚ)
    ∧ (5 : ℚ) ≠ 0 := by
  constructor
  · decide
  · norm_num

/-- Claim C3, amended: `load_count` and `avg_response_time` are modified only
by a successful `Generate`; `error_count` only by a failed start or a failed
generation; `last_used` only by a successful `Generate` or a successful
`StartModel`. Concretely: `AddModel` preserves every existing record;
`StopModel` changes only `state`; `StartModel` preserves `load_count` and
`avg_response_time` always, preserves `error_count` when the backend check
succeeds and preserves `last_used` when it fails; `Generate` preserves
`error_count` when the backend call succeeds and preserves `last_used`,
`load_count` and `avg_response_time` when it fails. -/
theorem C3_statistics_frame :
    ∀ (s : MCP) (k : String) (m : ModelInfo),
      List.lookup k s.models = Option.some m →
      (∀ n, List.lookup k ((s.add_model n).1).models = Option.some m) ∧
      (∀ n, ∃ m2, List.lookup k ((s.stop_model n).1).models = Option.some m2 ∧
         m2.last_used = m.last_used ∧ m2.load_count = m.load_count ∧
         m2.avg_response_time = m.avg_response_time ∧
         m2.error_count = m.error_count) ∧
      (∀ n b now, ∃ m2,
         List.lookup k ((s.start_model n b now).1).models = Option.some m2 ∧
         m2.load_count = m.load_count ∧ m2.avg_response_time = m.avg_response_time ∧
         (∀ u, b = Except.ok u → m2.error_count = m.error_count) ∧
         (∀ e, b = Except.error e → m2.last_used = m.last_used)) ∧
      (∀ n req resp cnt now dur, ∃ m2,
         List.lookup k ((MCP.generate s n req (BackendGen.ok resp cnt) now dur).1).models =
           Option.some m2 ∧ m2.error_count = m.error_count) ∧
      (∀ n req msg now dur, ∃ m2,
         List.lookup k ((MCP.generate s n req (BackendGen.exc msg) now dur).1).models =
           Option.some m2 ∧ m2.last_used = m.last_used ∧
         m2.load_count = m.load_count ∧
         m2.avg_response_time = m.avg_response_time) := by
  intro s k m h
  refine ⟨?_, ?_, ?_, ?_, ?_⟩
  · intro n
    exact add_model_lookup_preserved s n k h
  · intro n
    by_cases hn : n = k
    · subst hn
      exact ⟨_, stop_model_lookup_self s n h, rfl, rfl, rfl, rfl⟩
    · rw [stop_model_lookup_ne s n k fun hc => hn hc.symm]
      exact ⟨m, h, rfl, rfl, rfl, rfl⟩
  · intro n b now
    by_cases hn : n = k
    · subst hn
      by_cases hr : m.state = ModelState.running
      · rw [start_model_already_running s n b now h hr]
        exact ⟨m, h, rfl, rfl, fun u hb => rfl, fun e hb => rfl⟩
      · cases b with
        | ok u =>
          refine ⟨_, start_model_ok_self s n u now h hr, rfl, rfl, ?_, ?_⟩
          · intro u2 hb
            rfl
          · intro e hb
            exact Except.noConfusion hb
        | error e =>
          refine ⟨_, start_model_err_self s n e now h hr, rfl, rfl, ?_, ?_⟩
          · intro u hb
            exact Except.noConfusion hb
          · intro e2 hb
            rfl
    · rw [start_model_lookup_ne s n k b now fun hc => hn hc.symm]
      exact ⟨m, h, rfl, rfl, fun u hb => rfl, fun e hb => rfl⟩
  · intro n req resp cnt now dur
    by_cases hn : n = k
    · subst hn
      by_cases hr : m.state = ModelState.running
      · exact ⟨_, generate_ok_self s n req resp cnt now dur h hr, rfl⟩
      · rw [generate_not_running s n req (BackendGen.ok resp cnt) now dur h hr]
        exact ⟨m, h, rfl⟩
    · rw [generate_lookup_ne s n k req (BackendGen.ok resp cnt) now dur
        fun hc => hn hc.symm]
      exact ⟨m, h, rfl⟩
  · intro n req msg now dur
    by_cases hn : n = k
    · subst hn
      by_cases hr : m.state = ModelState.running
      · exact ⟨_, generate_exc_self s n req msg now dur h hr, rfl, rfl, rfl⟩
      · rw [generate_not_running s n req (BackendGen.exc msg) now dur h hr]
        exact ⟨m, h, rfl, rfl, rfl⟩
    · rw [generate_lookup_ne s n k req (BackendGen.exc msg) now dur
        fun hc => hn hc.symm]
      exact ⟨m, h, rfl, rfl, rfl⟩

/-- Claim C3, witness: the frame conditions instantiated on a concrete
registry holding the running model `m`, for an `AddModel` of a new name, a
`StopModel`, a failed `StartModel` and a failed `Generate`. -/
theorem C3_statistics_frame_witness :
    List.lookup "m" ((MCP.add_model runningMCP "n").1).models =
      Option.some runningModel ∧
    (∃ m2, List.lookup "m" ((MCP.stop_model runningMCP "m").1).models =
      Option.some m2 ∧ m2.last_used = runningModel.last_used ∧
      m2.load_count = runningModel.load_count ∧
      m2.avg_response_time = runningModel.avg_response_time ∧
      m2.error_count = runningModel.error_count) ∧
    (∃ m2, List.lookup "m"
        ((MCP.start_model runningMCP "m" (Except.error "down") 7).1).models =
      Option.some m2 ∧ m2.load_count = runningModel.load_count ∧
      m2.avg_response_time = runningModel.avg_response_time ∧
      (∀ u, (Except.error "down" : Except String Unit) = Except.ok u →
        m2.error_count = runningModel.error_count) ∧
      (∀ e, (Except.error "down" : Except String Unit) = Except.error e →
        m2.last_used = runningModel.last_used)) ∧
    (∃ m2, List.lookup "m"
        ((MCP.generate runningMCP "m" someRequest (BackendGen.exc "timeout") 1 1).1).models =
      Option.some m2 ∧ m2.last_used = runningModel.last_used ∧
      m2.load_count = runningModel.load_count ∧
      m2.avg_response_time = runningModel.avg_response_time) := by
  have h := C3_statistics_frame runningMCP "m" runningModel rfl
  exact ⟨h.1 "n", h.2.1 "m", h.2.2.1 "m" (Except.error "down") 7,
         h.2.2.2.2 "m" someRequest "timeout" 1 1⟩

/-- Claim C6: registering a tool under a name already present in the
registry fails with the duplicate-name `ValueError` and leaves the catalog —
including the previously registered tool's descriptor — exactly unchanged. -/
theorem C6_duplicate_registration :
    ∀ (r : ToolRegistry) (name : String) (t : Tool) (fn : PyCallable)
      (desc : String) (ps : Option (List (String × ParamInfo))) (rt : PyType),
      r.get_tool name = Option.some t →
      ToolRegistry.register r name fn desc ps rt =
        (r, Option.some (PyErr.valueError ("Tool " ++ name ++ " is already registered"))) ∧
      (ToolRegistry.register r name fn desc ps rt).1.get_tool name = Option.some t := by
  intro r name t fn desc ps rt h
  have hs : (List.lookup name r.tools).isSome = true := by
    unfold ToolRegistry.get_tool at h
    rw [h]
    rfl
  constructor
  · unfold ToolRegistry.register
    rw [if_pos hs]
  · unfold ToolRegistry.register
    rw [if_pos hs]
    exact h

/-- Claim C6, witness: re-registering `good` on the concrete registry fails
with the duplicate-name error and the stored descriptor is untouched. -/
theorem C6_duplicate_registration_witness :
    ToolRegistry.register toolRegistryFix "good" fnFix "other" Option.none PyType.str =
      (toolRegistryFix,
       Option.some (PyErr.valueError "Tool good is already registered")) ∧
    (ToolRegistry.register toolRegistryFix "good" fnFix "other" Option.none
        PyType.str).1.get_tool "good" = Option.some goodTool := by
  exact C6_duplicate_registration toolRegistryFix "good" goodTool fnFix "other"
    Option.none PyType.str rfl

/-- Claim C7: registering a callable without an explicit parameters mapping
derives one descriptor per formal parameter of the callable's signature,
skipping `self`: the type tag is the annotation, defaulting to `str` when
unannotated; `required` is true exactly when there is no default; and a
default, when present, is carried in the descriptor. -/
theorem C7_parameter_inference :
    ∀ (r : ToolRegistry) (name : String) (fn : PyCallable) (desc : String)
      (rt : PyType),
      r.get_tool name = Option.none →
      ((ToolRegistry.register r name fn desc Option.none rt).1.get_tool name =
        Option.some { name := name, function := fn, description := desc,
                      parameters := inferParameters fn.sig, return_type := rt }) ∧
      (∀ p, p ∈ fn.sig → p.name ≠ "self" →
        (p.name, { type := p.annot.getD PyType.str,
                   description := "Parameter " ++ p.name,
                   required := p.default.isNone,
                   default := p.default }) ∈ inferParameters fn.sig) := by
  intro r name fn desc rt h
  constructor
  · have hs : (List.lookup name r.tools).isSome = false := by
      unfold ToolRegistry.get_tool at h
      rw [h]
      rfl
    unfold ToolRegistry.register
    rw [if_neg (by simp [hs])]
    unfold ToolRegistry.get_tool at h ⊢
    simp only []
    rw [lookup_append_right h]
    exact List.lookup_cons_self
  · intro p hp hself
    exact List.mem_filterMap.mpr ⟨p, hp, by rw [if_neg hself]⟩

/-- Claim C7, witness: inferring the schema of a callable with signature
`(self, x : int, y = 3)` yields a required `int` parameter `x` and an
optional `str` parameter `y` carrying default `3`, and `self` is skipped. -/
theorem C7_parameter_inference_witness :
    ((ToolRegistry.register { tools := [] } "t" fnFix "" Option.none PyType.str).1.get_tool
        "t" = Option.some { name := "t", function := fnFix, description := "",
                            parameters := inferParameters fnFix.sig,
                            return_type := PyType.str }) ∧
    ("x", { type := PyType.int, description := "Parameter x", required := true,
            default := Option.none }) ∈ inferParameters fnFix.sig ∧
    ("y", { type := PyType.str, description := "Parameter y", required := false,
            default := Option.some (PyVal.int 3) }) ∈ inferParameters fnFix.sig := by
  have h := C7_parameter_inference { tools := [] } "t" fnFix "" PyType.str rfl
  refine ⟨h.1, ?_, ?_⟩
  · exact h.2 { name := "x", annot := Option.some PyType.int, default := Option.none }
      (List.mem_cons_of_mem _ (List.mem_cons_self _ _)) (by decide)
  · exact h.2 { name := "y", annot := Option.none, default := Option.some (PyVal.int 3) }
      (List.mem_cons_of_mem _ (List.mem_cons_of_mem _ (List.mem_cons_self _ _)))
      (by decide)

/-- Claim C8: when a registered tool's callable returns a value, `execute`
returns that value unchanged if it is JSON-serializable, and fails with the
non-serializable-result `ValueError` if it is not, even though the callable
itself succeeded. -/
theorem C8_execute_result_check :
    ∀ (r : ToolRegistry) (name : String) (t : Tool)
      (kwargs : List (String × PyVal)) (v : PyVal),
      r.get_tool name = Option.some t →
      t.function.run kwargs = Except.ok v →
      (jsonSerializable v = true →
        ToolRegistry.execute r name kwargs = Except.ok v) ∧
      (jsonSerializable v = false →
        ToolRegistry.execute r name kwargs = Except.error
          (PyErr.valueError ("Tool " ++ name ++ " returned non-serializable result"))) := by
  intro r name t kwargs v h hrun
  constructor
  · intro hs
    simp [ToolRegistry.execute, h, hrun, hs]
  · intro hs
    simp [ToolRegistry.execute, h, hrun, hs]

/-- Claim C8, witness: on the concrete registry, `good` returns the float
`4` unchanged and `bad`, whose callable successfully returns a
non-serializable object, fails with the non-serializable-result error. -/
theorem C8_execute_result_check_witness :
    ToolRegistry.execute toolRegistryFix "good" [] = Except.ok (PyVal.float 4) ∧
    ToolRegistry.execute toolRegistryFix "bad" [] =
      Except.error (PyErr.valueError "Tool bad returned non-serializable result") := by
  have hg := C8_execute_result_check toolRegistryFix "good" goodTool []
    (PyVal.float 4) rfl rfl
  have hb := C8_execute_result_check toolRegistryFix "bad" badTool []
    (PyVal.obj "handle") rfl rfl
  exact ⟨hg.1 rfl, hb.2 rfl⟩

/-- Claim C9, counterexample: `POST /tools/execute` answers 404 for the
registered tool `bad` (whose callable succeeds but returns a
non-serializable result), so 404 does not hold exactly when the named tool
is unregistered. -/
theorem C9_counterexample :
    (execute_tool toolRegistryFix (Option.some "bad") []).1 = 404 ∧
    (toolRegistryFix.get_tool "bad").isSome = true := by
  exact ⟨rfl, rfl⟩

/-- Claim C9, amended: the handler returns 404 exactly when the registry's
`execute` raises `ValueError` — an unregistered tool name, a
non-serializable result, or the callable itself raising `ValueError` — and
500 when it raises any other exception; a missing or empty `tool_name`
yields 500 (its own HTTPException(400) is swallowed by the generic handler);
on success the body is `{success: true, result, tool_name}` with 200. -/
theorem C9_status_mapping :
    ∀ (r : ToolRegistry) (tn : String) (params : List (String × PyVal)),
      (execute_tool r Option.none params =
        (500, ExecBody.detail "400: Missing tool_name")) ∧
      (execute_tool r (Option.some "") params =
        (500, ExecBody.detail "400: Missing tool_name")) ∧
      (tn ≠ "" → r.get_tool tn = Option.none →
        execute_tool r (Option.some tn) params =
          (404, ExecBody.detail ("Tool " ++ tn ++ " not found"))) ∧
      (∀ t v, tn ≠ "" → r.get_tool tn = Option.some t →
        t.function.run params = Except.ok v → jsonSerializable v = true →
        execute_tool r (Option.some tn) params = (200, ExecBody.success v tn)) ∧
      (∀ t v, tn ≠ "" → r.get_tool tn = Option.some t →
        t.function.run params = Except.ok v → jsonSerializable v = false →
        execute_tool r (Option.some tn) params =
          (404, ExecBody.detail ("Tool " ++ tn ++ " returned non-serializable result"))) ∧
      (∀ t e, tn ≠ "" → r.get_tool tn = Option.some t →
        t.function.run params = Except.error e →
        execute_tool r (Option.some tn) params =
          (if e.isValueError then 404 else 500, ExecBody.detail e.msg)) := by
  intro r tn params
  refine ⟨rfl, rfl, ?_, ?_, ?_, ?_⟩
  · intro hne h
    simp [execute_tool, ToolRegistry.execute, hne, h, PyErr.isValueError, PyErr.msg]
  · intro t v hne h hrun hser
    simp [execute_tool, ToolRegistry.execute, hne, h, hrun, hser]
  · intro t v hne h hrun hser
    simp [execute_tool, ToolRegistry.execute, hne, h, hrun, hser,
      PyErr.isValueError, PyErr.msg]
  · intro t e hne h hrun
    cases he : e.isValueError with
    | true => simp [execute_tool, ToolRegistry.execute, hne, h, hrun, he]
    | false => simp [execute_tool, ToolRegistry.execute, hne, h, hrun, he]

/-- Claim C9, witness: on the concrete registry, an unknown name gives 404,
`good` gives 200 with the success body, `bad` (non-serializable result)
gives 404, `boom` (callable raising a non-ValueError exception) gives 500,
and a missing tool name gives 500. -/
theorem C9_status_mapping_witness :
    execute_tool toolRegistryFix (Option.some "missing") [] =
      (404, ExecBody.detail "Tool missing not found") ∧
    execute_tool toolRegistryFix (Option.some "good") [] =
      (200, ExecBody.success (PyVal.float 4) "good") ∧
    execute_tool toolRegistryFix (Option.some "bad") [] =
      (404, ExecBody.detail "Tool bad returned non-serializable result") ∧
    execute_tool toolRegistryFix (Option.some "boom") [] =
      (500, ExecBody.detail "Division by zero") ∧
    execute_tool toolRegistryFix Option.none [] =
      (500, ExecBody.detail "400: Missing tool_name") := by
  refine ⟨?_, ?_, ?_, ?_, ?_⟩
  · exact (C9_status_mapping toolRegistryFix "missing" []).2.2.1 (by decide) rfl
  · exact (C9_status_mapping toolRegistryFix "good" []).2.2.2.1 goodTool
      (PyVal.float 4) (by decide) rfl rfl rfl
  · exact (C9_status_mapping toolRegistryFix "bad" []).2.2.2.2.1 badTool
      (PyVal.obj "handle") (by decide) rfl rfl rfl
  · exact (C9_status_mapping toolRegistryFix "boom" []).2.2.2.2.2 boomTool
      (PyErr.calculatorError "Division by zero") (by decide) rfl rfl
  · exact (C9_status_mapping toolRegistryFix "x" []).1

/-- Claim C10: for every value passed as the expression argument, and for
every behaviour of the expression validator and of the underlying eval,
`calculate` either returns a number or fails with `CalculatorError`; no
other exception class escapes. -/
theorem C10_calculate_total :
    ∀ (valid : String → Bool) (evalFn : String → EvalOutcome) (x : PyVal),
      (∃ q, calculate valid evalFn x = Except.ok q) ∨
      (∃ msg, calculate valid evalFn x = Except.error (PyErr.calculatorError msg)) := by
  intro valid evalFn x
  cases x with
  | str s =>
      by_cases hs : s = ""
      · exact Or.inr ⟨"Expression must be a non-empty string",
          by simp [calculate, Calculator.evaluate, hs]⟩
      · cases hval : valid (stripWhitespace s) with
        | false =>
            exact Or.inr ⟨"Invalid mathematical expression",
              by simp [calculate, Calculator.evaluate, hs, hval]⟩
        | true =>
            cases ho : evalFn (stripWhitespace s) with
            | val v =>
                cases hn : isNumber v with
                | true =>
                    exact Or.inl ⟨pyFloat v,
                      by simp [calculate, Calculator.evaluate, hs, hval, ho, hn]⟩
                | false =>
                    exact Or.inr
                      ⟨"Error evaluating expression: Expression did not evaluate to a number",
                       by simp [calculate, Calculator.evaluate, hs, hval, ho, hn]⟩
            | exc e =>
                cases e with
                | valueError msg =>
                    exact Or.inr ⟨"Error evaluating expression: " ++ msg,
                      by simp [calculate, Calculator.evaluate, hs, hval, ho, PyErr.msg]⟩
                | typeError msg =>
                    exact Or.inr ⟨"Error evaluating expression: " ++ msg,
                      by simp [calculate, Calculator.evaluate, hs, hval, ho, PyErr.msg]⟩
                | zeroDivisionError msg =>
                    exact Or.inr ⟨"Division by zero",
                      by simp [calculate, Calculator.evaluate, hs, hval, ho]⟩
                | calculatorError msg =>
                    exact Or.inr ⟨"Error evaluating expression: " ++ msg,
                      by simp [calculate, Calculator.evaluate, hs, hval, ho, PyErr.msg]⟩
                | requestException msg =>
                    exact Or.inr ⟨"Error evaluating expression: " ++ msg,
                      by simp [calculate, Calculator.evaluate, hs, hval, ho, PyErr.msg]⟩
                | otherExc msg =>
                    exact Or.inr ⟨"Error evaluating expression: " ++ msg,
                      by simp [calculate, Calculator.evaluate, hs, hval, ho, PyErr.msg]⟩
  | int n => exact Or.inr ⟨_, rfl⟩
  | float q => exact Or.inr ⟨_, rfl⟩
  | bool b => exact Or.inr ⟨_, rfl⟩
  | none => exact Or.inr ⟨_, rfl⟩
  | list xs => exact Or.inr ⟨_, rfl⟩
  | dict xs => exact Or.inr ⟨_, rfl⟩
  | obj tag => exact Or.inr ⟨_, rfl⟩
